import Mathlib

/-!
Shallow embedding of the `voice-agent-demo` Python relay servers
(`src/python-server/server.py`, the two-way variant, and
`src/python-server/hybrid_server.py`, the three-way variant) and proofs of
the specification's claims about them.

Modelling conventions:
* A decoded JSON value (`json.loads` result) is a `Json` value; JSON numbers
  are exact rationals (the sources only pass numeric literals through, never
  compute with them).
* A raw WebSocket frame is a `Frame`: either `malformed` (a string on which
  `json.loads` raises `JSONDecodeError`) or `ok raw j` (the raw text together
  with its decoded value).
* Each `async` forwarding loop of the sources becomes a pure handler from one
  decoded event to the list of outbound sends it performs, in send order, plus
  a loop function folding the handler over a list of received frames.
  A Python `AttributeError` raised by calling `.get` on a non-dict value is
  caught by the generic `except Exception` of every loop, so those cases
  translate to "no outbound sends".
* Connection setup / teardown side effects (outbound connects, closes,
  registry mutation) become `Action` traces.
-/

namespace VoiceAgent

/-- A decoded JSON value, as produced by Python's `json.loads`.  Numbers are
modelled as exact rationals: the relay never performs numeric computation,
it only embeds numeric literals (`0.5`, `300`, ...) into outbound payloads. -/
inductive Json where
  | null
  | bool (b : Bool)
  | num (q : ℚ)
  | str (s : String)
  | arr (elems : List Json)
  | obj (fields : List (String × Json))

namespace Json

/-- Python `d.get(k)` on a decoded JSON object: the value bound to the first
occurrence of key `k`, if any (decoded Python dicts have unique keys). -/
def dictGet? (fields : List (String × Json)) (k : String) : Option Json :=
  match fields with
  | [] => none
  | (k2, v) :: rest => if k2 = k then some v else dictGet? rest k

/-- Python `d.get(k, default)`. -/
def dictGetD (fields : List (String × Json)) (k : String) (d : Json) : Json :=
  (dictGet? fields k).getD d

/-- Python truthiness of a decoded JSON value (`if x:`): `None` and `False`
are falsy, numbers are truthy iff nonzero, strings/lists/dicts iff nonempty. -/
def truthy : Json → Bool
  | null => false
  | bool b => b
  | num q => q ≠ 0
  | str s => s ≠ ""
  | arr elems => !elems.isEmpty
  | obj fields => !fields.isEmpty

/-- Python `x == "s"` for a decoded JSON value `x` (such as `event.get("type")`,
where a missing key gives `None`): true exactly when `x` is that string. -/
def isStr (x : Option Json) (s : String) : Bool :=
  match x with
  | some (str s2) => s2 = s
  | _ => false

end Json

/-- Which socket an outbound send is addressed to. -/
inductive Dest where
  | browser
  | ai
  | tts
deriving DecidableEq

/-- An outbound WebSocket message: either `json.dumps` of a constructed value,
or a raw frame forwarded verbatim (`server.py` line 193). -/
inductive OutMsg where
  | json (j : Json)
  | raw (s : String)

/-- One outbound send: destination socket and message. -/
structure Out where
  dest : Dest
  msg : OutMsg

/-- A received WebSocket frame: `malformed raw` when `json.loads(raw)` raises
`JSONDecodeError`, `ok raw j` when it decodes `raw` to `j`. -/
inductive Frame where
  | malformed (raw : String)
  | ok (raw : String) (j : Json)

/-- The `session` block of `hybrid_server.py`'s `session_created` literal
(lines 105–128). -/
def hybrid_session : Json :=
  Json.obj [
    ("id", Json.str "elevenlabs_hybrid_session"),
    ("object", Json.str "realtime.session"),
    ("model", Json.str "elevenlabs-hybrid"),
    ("modalities", Json.arr [Json.str "text", Json.str "audio"]),
    ("instructions", Json.str "ElevenLabs Hybrid Agent"),
    ("voice", Json.str "elevenlabs-tts-voice"),
    ("input_audio_format", Json.str "pcm16"),
    ("output_audio_format", Json.str "pcm16"),
    ("input_audio_transcription", Json.null),
    ("turn_detection", Json.obj [
      ("type", Json.str "server_vad"),
      ("threshold", Json.num (0.5 : ℚ)),
      ("prefix_padding_ms", Json.num 300),
      ("silence_duration_ms", Json.num 200)]),
    ("tools", Json.arr []),
    ("tool_choice", Json.str "auto"),
    ("temperature", Json.num (0.8 : ℚ)),
    ("max_response_output_tokens", Json.str "inf")]

/-- The `session` block of `server.py`'s `session_created` literal
(lines 70–93). -/
def server_session : Json :=
  Json.obj [
    ("id", Json.str "elevenlabs_session"),
    ("object", Json.str "realtime.session"),
    ("model", Json.str "elevenlabs-conversational-ai"),
    ("modalities", Json.arr [Json.str "text", Json.str "audio"]),
    ("instructions", Json.str "ElevenLabs Conversational AI Agent"),
    ("voice", Json.str "elevenlabs-agent-voice"),
    ("input_audio_format", Json.str "pcm16"),
    ("output_audio_format", Json.str "pcm16"),
    ("input_audio_transcription", Json.null),
    ("turn_detection", Json.obj [
      ("type", Json.str "server_vad"),
      ("threshold", Json.num (0.5 : ℚ)),
      ("prefix_padding_ms", Json.num 300),
      ("silence_duration_ms", Json.num 200)]),
    ("tools", Json.arr []),
    ("tool_choice", Json.str "auto"),
    ("temperature", Json.num (0.8 : ℚ)),
    ("max_response_output_tokens", Json.str "inf")]

/-- The `session.created` handshake event built around a session block
(`session_created` in both sources). -/
def session_created (descriptor : Json) : Json :=
  Json.obj [("type", Json.str "session.created"), ("session", descriptor)]

/-- One iteration of `handle_browser_messages`: identical logic in
`server.py` (lines 97–140) and `hybrid_server.py` (lines 132–166), dispatching
a decoded browser event.  The first component is the session descriptor the
closure reads (`session_created["session"]`) after the iteration — returned
unchanged by every branch, since no branch assigns to it — and the second is
the list of sends performed, in order.  A non-dict event makes
`event.get("type")` raise `AttributeError`, caught by the loop's generic
`except Exception`: no sends. -/
def handle_browser_event (descriptor : Json) (event : Json) : Json × List Out :=
  match event with
  | Json.obj fields =>
    let event_type := Json.dictGet? fields "type"
    if Json.isStr event_type "session.update" then
      (descriptor,
       [⟨Dest.browser, OutMsg.json (Json.obj
          [("type", Json.str "session.updated"), ("session", descriptor)])⟩])
    else if Json.isStr event_type "input_audio_buffer.append" then
      (descriptor,
       [⟨Dest.ai, OutMsg.json (Json.obj
          [("user_audio_chunk", Json.dictGetD fields "audio" (Json.str ""))])⟩])
    else if Json.isStr event_type "input_audio_buffer.commit" then
      (descriptor, [])
    else if Json.isStr event_type "response.create" then
      (descriptor, [])
    else
      (descriptor, [])
  | _ => (descriptor, [])

/-- The `handle_browser_messages` receive loop over a list of received frames,
threading the session descriptor and concatenating sends in order.  A
`JSONDecodeError` frame is logged and the loop continues (both sources). -/
def browser_loop (descriptor : Json) : List Frame → Json × List Out
  | [] => (descriptor, [])
  | Frame.malformed _ :: rest => browser_loop descriptor rest
  | Frame.ok _ j :: rest =>
    let step := handle_browser_event descriptor j
    let tail := browser_loop step.1 rest
    (tail.1, step.2 ++ tail.2)

/-- The `response.text.delta` event `hybrid_server.py` builds at lines 199–206
(same shape, different ids, as `server.py` lines 172–178). -/
def text_delta_event (response_id item_id : String) (delta : Json) : Json :=
  Json.obj [
    ("type", Json.str "response.text.delta"),
    ("response_id", Json.str response_id),
    ("item_id", Json.str item_id),
    ("output_index", Json.num 0),
    ("content_index", Json.num 0),
    ("delta", delta)]

/-- The `response.audio.delta` event both sources build (`hybrid_server.py`
lines 245–252, `server.py` lines 158–165). -/
def audio_delta_event (response_id item_id : String) (delta : Json) : Json :=
  Json.obj [
    ("type", Json.str "response.audio.delta"),
    ("response_id", Json.str response_id),
    ("item_id", Json.str item_id),
    ("output_index", Json.num 0),
    ("content_index", Json.num 0),
    ("delta", delta)]

/-- The `conversation.interrupted` event (both sources). -/
def interrupted_event : Json :=
  Json.obj [("type", Json.str "conversation.interrupted")]

/-- One iteration of `hybrid_server.py`'s `handle_elevenlabs_ai_messages`
(lines 172–228), dispatching a decoded AI event to the sends it performs, in
order.  For `agent_response`, `event.get("agent_response_event", {})` must be
a dict (else the `.get` raises and the generic handler swallows it), the
nested text is read with default `""`, and the `if text_response:` truthiness
guard skips empty text; otherwise the TTS utterance is sent first, then the
browser text delta.  `user_transcript` and `ping` are no-ops; `interruption`
and `agent_response_correction` send `conversation.interrupted`; anything else
is logged and dropped (lines 222–223). -/
def handle_elevenlabs_ai_event (event : Json) : List Out :=
  match event with
  | Json.obj fields =>
    let event_type := Json.dictGet? fields "type"
    if Json.isStr event_type "agent_response" then
      match Json.dictGetD fields "agent_response_event" (Json.obj []) with
      | Json.obj afields =>
        let text_response := Json.dictGetD afields "agent_response" (Json.str "")
        if text_response.truthy then
          [⟨Dest.tts, OutMsg.json (Json.obj
             [("text", text_response), ("flush", Json.bool true)])⟩,
           ⟨Dest.browser, OutMsg.json
             (text_delta_event "elevenlabs_response" "elevenlabs_text" text_response)⟩]
        else []
      | _ => []
    else if Json.isStr event_type "user_transcript" then []
    else if Json.isStr event_type "interruption"
            || Json.isStr event_type "agent_response_correction" then
      [⟨Dest.browser, OutMsg.json interrupted_event⟩]
    else if Json.isStr event_type "ping" then []
    else []
  | _ => []

/-- One iteration of `hybrid_server.py`'s `handle_elevenlabs_tts_messages`
(lines 234–267), dispatching a decoded TTS message.  `if data.get("audio"):`
is a Python truthiness test (missing key gives `None`), with an `elif` on
`data.get("isFinal")`: a truthy audio payload yields exactly the browser
audio delta and suppresses the `isFinal` branch. -/
def handle_elevenlabs_tts_message (data : Json) : List Out :=
  match data with
  | Json.obj fields =>
    if (Json.dictGetD fields "audio" Json.null).truthy then
      [⟨Dest.browser, OutMsg.json
         (audio_delta_event "elevenlabs_tts_response" "elevenlabs_tts_audio"
           (Json.dictGetD fields "audio" Json.null))⟩]
    else if (Json.dictGetD fields "isFinal" Json.null).truthy then
      [⟨Dest.browser, OutMsg.json (Json.obj [("type", Json.str "response.audio.done")])⟩]
    else []
  | _ => []

/-- One iteration of `server.py`'s `handle_elevenlabs_messages` (lines
146–202), dispatching a decoded AI event.  Line 193,
`await websocket.send(message)`, is indented at the level of the `if`/`elif`
chain, not inside the `else` branch, so after the chain every successfully
processed frame — of every type, recognised or not — is additionally
forwarded to the browser verbatim (`raw`).  A nested `.get` on a non-dict
value raises before that send, so such frames produce no sends at all. -/
def handle_server_ai_frame (raw : String) (event : Json) : List Out :=
  match event with
  | Json.obj fields =>
    let event_type := Json.dictGet? fields "type"
    if Json.isStr event_type "audio" then
      match Json.dictGetD fields "audio_event" (Json.obj []) with
      | Json.obj afields =>
        [⟨Dest.browser, OutMsg.json
           (audio_delta_event "elevenlabs_response" "elevenlabs_audio"
             (Json.dictGetD afields "audio_base_64" (Json.str "")))⟩,
         ⟨Dest.browser, OutMsg.raw raw⟩]
      | _ => []
    else if Json.isStr event_type "message" then
      match Json.dictGetD fields "message" (Json.obj []) with
      | Json.obj mfields =>
        (if Json.isStr (Json.dictGet? mfields "role") "assistant" then
          [⟨Dest.browser, OutMsg.json
             (text_delta_event "elevenlabs_response" "elevenlabs_text"
               (Json.dictGetD mfields "content" (Json.str "")))⟩]
         else []) ++ [⟨Dest.browser, OutMsg.raw raw⟩]
      | _ => []
    else if Json.isStr event_type "interruption" then
      [⟨Dest.browser, OutMsg.json interrupted_event⟩,
       ⟨Dest.browser, OutMsg.raw raw⟩]
    else
      [⟨Dest.browser, OutMsg.raw raw⟩]
  | _ => []

/-- `hybrid_server.py`'s `handle_elevenlabs_ai_messages` receive loop over a
list of frames; malformed JSON is logged and the loop continues. -/
def elevenlabs_ai_loop : List Frame → List Out
  | [] => []
  | Frame.malformed _ :: rest => elevenlabs_ai_loop rest
  | Frame.ok _ j :: rest => handle_elevenlabs_ai_event j ++ elevenlabs_ai_loop rest

/-- `hybrid_server.py`'s `handle_elevenlabs_tts_messages` receive loop over a
list of frames; malformed JSON is logged and the loop continues. -/
def elevenlabs_tts_loop : List Frame → List Out
  | [] => []
  | Frame.malformed _ :: rest => elevenlabs_tts_loop rest
  | Frame.ok _ j :: rest => handle_elevenlabs_tts_message j ++ elevenlabs_tts_loop rest

/-- `server.py`'s `handle_elevenlabs_messages` receive loop over a list of
frames; malformed JSON is logged and the loop continues. -/
def server_ai_loop : List Frame → List Out
  | [] => []
  | Frame.malformed _ :: rest => server_ai_loop rest
  | Frame.ok raw j :: rest => handle_server_ai_frame raw j ++ server_ai_loop rest

/-- A connection-lifecycle side effect of `handle_browser_connection`, in the
order performed.  Close reasons are human-readable log strings and are
elided; only the close codes matter to the protocol. -/
inductive Action where
  | connectAI
  | connectTTS
  | sendBrowser (j : Json)
  | closeBrowser (code : Nat)
  | closeAI (code : Nat)
  | closeTTS (code : Nat)
  | registryInsert
  | registryRemove
  | runPump

/-- `path.split("?")[0]`: the request path with any query string stripped
(both sources, `base_path`): the characters strictly before the first `?`. -/
def base_path (path : String) : String :=
  String.mk (path.data.takeWhile (fun c => c ≠ '?'))

/-- The construction phase of `hybrid_server.py`'s `handle_browser_connection`
(lines 78–296), as the trace of side effects it performs, parameterised by
the outcome of the two upstream connect attempts (`aiOk`, `ttsOk`; a `false`
outcome means the corresponding `connect_to_elevenlabs_*` call raised).
A bad path closes the browser socket with 1008 and returns before any
connect.  A connect failure propagates to the `except` block, which closes
the browser socket with 1011 (`session.created` was never sent); the
`finally` block then does nothing more, because the registry insert at line
97 only happens after both connects succeed and the browser socket is
already closed.  In particular a TTS failure after a successful AI connect
closes nothing upstream.  On full success the session is registered, the
`session.created` handshake is sent, and the message pump runs (`runPump`;
its per-frame behaviour and the subsequent cleanup are modelled separately
by the loop functions and `cleanup`). -/
def handle_browser_connection (path : String) (aiOk ttsOk : Bool) : List Action :=
  if base_path path ≠ "/" then
    [Action.closeBrowser 1008]
  else if !aiOk then
    [Action.connectAI, Action.closeBrowser 1011]
  else if !ttsOk then
    [Action.connectAI, Action.connectTTS, Action.closeBrowser 1011]
  else
    [Action.connectAI, Action.connectTTS, Action.registryInsert,
     Action.sendBrowser (session_created hybrid_session), Action.runPump]

/-- The construction phase of `server.py`'s `handle_browser_connection`
(lines 49–223): identical shape with a single upstream connect. -/
def server_handle_browser_connection (path : String) (aiOk : Bool) : List Action :=
  if base_path path ≠ "/" then
    [Action.closeBrowser 1008]
  else if !aiOk then
    [Action.connectAI, Action.closeBrowser 1011]
  else
    [Action.connectAI, Action.registryInsert,
     Action.sendBrowser (session_created server_session), Action.runPump]

/-- The mutable connection state of one hybrid session as seen by the
`finally` cleanup block: which of the three owned sockets are still open and
whether `websocket in self.connections` (the registry holds this session's
entry). -/
structure SessionState where
  browserOpen : Bool
  aiOpen : Bool
  ttsOpen : Bool
  registered : Bool
deriving DecidableEq

/-- The `finally` cleanup block of `hybrid_server.py` (lines 286–296): if the
session is registered, close the AI and TTS sockets (code 1000) when still
open and delete the registry entry; then close the browser socket (code
1000) when still open.  Returns the state after the block and the actions
performed, in order.  This block runs when the pump stops, i.e. as soon as
any one of the three sockets has closed or errored. -/
def cleanup (s : SessionState) : SessionState × List Action :=
  let upstream :=
    if s.registered then
      (if s.aiOpen then [Action.closeAI 1000] else []) ++
      (if s.ttsOpen then [Action.closeTTS 1000] else []) ++
      [Action.registryRemove]
    else []
  let downstream := if s.browserOpen then [Action.closeBrowser 1000] else []
  (⟨false, s.aiOpen && !s.registered, s.ttsOpen && !s.registered, false⟩,
   upstream ++ downstream)

/-- Discriminator for `Action.registryRemove`, to count removals. -/
def Action.isRegistryRemove : Action → Bool
  | Action.registryRemove => true
  | _ => false

/-- Discriminator for connect attempts (either upstream endpoint). -/
def Action.isConnect : Action → Bool
  | Action.connectAI => true
  | Action.connectTTS => true
  | _ => false

/-- Discriminator for `Action.closeAI`. -/
def Action.isCloseAI : Action → Bool
  | Action.closeAI _ => true
  | _ => false

/-- Discriminator for `Action.sendBrowser` (any payload). -/
def Action.isSendBrowser : Action → Bool
  | Action.sendBrowser _ => true
  | _ => false

/-- Top-level field lookup on a JSON object (`j["k"]` / `j.get("k")` when `j`
is a dict); `none` on non-objects and missing keys. -/
def Json.field? : Json → String → Option Json
  | Json.obj fields, k => Json.dictGet? fields k
  | _, _ => none

/-- Discriminator for a send of the `response.audio.done` event to the
browser. -/
def Out.isAudioDone : Out → Bool
  | ⟨Dest.browser, OutMsg.json (Json.obj [("type", Json.str "response.audio.done")])⟩ => true
  | _ => false

/-- Discriminator for sends addressed to the TTS socket. -/
def Out.isToTts : Out → Bool
  | ⟨Dest.tts, _⟩ => true
  | _ => false

/-! ### Helper lemmas -/

/-- No branch of the browser dispatch assigns to the closed-over
`session_created` dict: the descriptor comes back unchanged. -/
theorem handle_browser_event_fst (descriptor event : Json) :
    (handle_browser_event descriptor event).1 = descriptor := by
  cases event with
  | obj fields =>
    simp only [handle_browser_event]
    split_ifs <;> rfl
  | null => rfl
  | bool b => rfl
  | num q => rfl
  | str s => rfl
  | arr elems => rfl

/-- The browser loop threads the descriptor through unchanged. -/
theorem browser_loop_fst (descriptor : Json) (frames : List Frame) :
    (browser_loop descriptor frames).1 = descriptor := by
  induction frames generalizing descriptor with
  | nil => rfl
  | cons f rest ih =>
    cases f with
    | malformed raw => simpa [browser_loop] using ih descriptor
    | ok raw j =>
      simp only [browser_loop]
      rw [ih, handle_browser_event_fst]

/-! ### C1: `input_audio_buffer.append` forwarding -/

/-- C1: a downstream event of type `input_audio_buffer.append` carrying audio
payload `P` makes the relay send exactly one `user_audio_chunk` message to
the AI socket, with `P` embedded unchanged, and processing the remaining
frames picks up only after that send: the loop's output on
`append :: rest` is that one AI send consed onto the output for `rest`.
The dispatch is the `handle_browser_messages` body shared verbatim by
`server.py` and `hybrid_server.py`. -/
theorem append_forwards_one_chunk (descriptor P : Json)
    (fields : List (String × Json)) (raw : String) (rest : List Frame)
    (htype : Json.dictGet? fields "type" =
      some (Json.str "input_audio_buffer.append"))
    (haudio : Json.dictGet? fields "audio" = some P) :
    handle_browser_event descriptor (Json.obj fields) =
      (descriptor,
        [⟨Dest.ai, OutMsg.json (Json.obj [("user_audio_chunk", P)])⟩]) ∧
    browser_loop descriptor (Frame.ok raw (Json.obj fields) :: rest) =
      ((browser_loop descriptor rest).1,
        ⟨Dest.ai, OutMsg.json (Json.obj [("user_audio_chunk", P)])⟩ ::
          (browser_loop descriptor rest).2) := by
  have h1 : handle_browser_event descriptor (Json.obj fields) =
      (descriptor,
        [⟨Dest.ai, OutMsg.json (Json.obj [("user_audio_chunk", P)])⟩]) := by
    simp [handle_browser_event, htype, Json.isStr, Json.dictGetD, haudio]
  refine ⟨h1, ?_⟩
  simp [browser_loop, h1]

/-- C1 witness: the spec's scenario event with payload `"QUJD"`. -/
theorem append_forwards_one_chunk_witness :
    Json.dictGet? [("type", Json.str "input_audio_buffer.append"),
        ("audio", Json.str "QUJD")] "type" =
      some (Json.str "input_audio_buffer.append") ∧
    Json.dictGet? [("type", Json.str "input_audio_buffer.append"),
        ("audio", Json.str "QUJD")] "audio" = some (Json.str "QUJD") ∧
    (handle_browser_event hybrid_session
        (Json.obj [("type", Json.str "input_audio_buffer.append"),
          ("audio", Json.str "QUJD")]) =
      (hybrid_session,
        [⟨Dest.ai, OutMsg.json
           (Json.obj [("user_audio_chunk", Json.str "QUJD")])⟩]) ∧
     browser_loop hybrid_session
        (Frame.ok "frame" (Json.obj [("type", Json.str "input_audio_buffer.append"),
          ("audio", Json.str "QUJD")]) :: []) =
      ((browser_loop hybrid_session []).1,
        ⟨Dest.ai, OutMsg.json
           (Json.obj [("user_audio_chunk", Json.str "QUJD")])⟩ ::
          (browser_loop hybrid_session []).2)) :=
  ⟨rfl, rfl,
    append_forwards_one_chunk hybrid_session (Json.str "QUJD") _ "frame" [] rfl rfl⟩

/-! ### C2: `session.update` acknowledgement -/

/-- C2: a `session.update` event produces exactly one send, a
`session.updated` event addressed to the browser whose `session` block is
the very descriptor carried by the `session.created` handshake; nothing
goes upstream (the single send is to the browser), and the descriptor the
loop threads is never mutated, over any frame sequence. -/
theorem session_update_acknowledged (descriptor : Json)
    (fields : List (String × Json)) (frames : List Frame)
    (htype : Json.dictGet? fields "type" = some (Json.str "session.update")) :
    handle_browser_event descriptor (Json.obj fields) =
      (descriptor,
        [⟨Dest.browser, OutMsg.json (Json.obj
           [("type", Json.str "session.updated"), ("session", descriptor)])⟩]) ∧
    (Json.obj [("type", Json.str "session.updated"),
        ("session", descriptor)]).field? "session" =
      (session_created descriptor).field? "session" ∧
    (browser_loop descriptor frames).1 = descriptor := by
  refine ⟨?_, ?_, browser_loop_fst descriptor frames⟩
  · simp [handle_browser_event, htype, Json.isStr]
  · rfl

/-- C2 witness: a concrete `session.update` against the hybrid descriptor. -/
theorem session_update_acknowledged_witness :
    Json.dictGet? [("type", Json.str "session.update")] "type" =
      some (Json.str "session.update") ∧
    (handle_browser_event hybrid_session
        (Json.obj [("type", Json.str "session.update")]) =
      (hybrid_session,
        [⟨Dest.browser, OutMsg.json (Json.obj
           [("type", Json.str "session.updated"), ("session", hybrid_session)])⟩]) ∧
     (Json.obj [("type", Json.str "session.updated"),
        ("session", hybrid_session)]).field? "session" =
      (session_created hybrid_session).field? "session" ∧
     (browser_loop hybrid_session
        [Frame.ok "u" (Json.obj [("type", Json.str "session.update")])]).1 =
      hybrid_session) :=
  ⟨rfl, session_update_acknowledged hybrid_session
    [("type", Json.str "session.update")]
    [Frame.ok "u" (Json.obj [("type", Json.str "session.update")])] rfl⟩

/-! ### C3: unrecognised event types -/

/-- C3 counterexample: in `server.py`'s `handle_elevenlabs_messages`, an event
of the unhandled type `"bogus"` is not dropped — the raw frame is forwarded
verbatim to the browser (line 193 sits after the `if`/`elif` chain, at its
indentation level), so exactly one message is sent where the claim requires
none. -/
theorem unrecognized_event_counterexample :
    handle_server_ai_frame "rawframe" (Json.obj [("type", Json.str "bogus")]) =
      [⟨Dest.browser, OutMsg.raw "rawframe"⟩] ∧
    (handle_server_ai_frame "rawframe"
      (Json.obj [("type", Json.str "bogus")])).length = 1 :=
  ⟨rfl, rfl⟩

/-- C3 amended: an event whose type is outside its loop's translation table
is logged and dropped — no send, no error, loop continues — in the browser
loop (shared by both servers) and in `hybrid_server.py`'s AI loop; in
`server.py`'s ElevenLabs loop it is logged and then the raw frame is
forwarded verbatim to the browser (as every successfully processed frame
is).  `hybrid_server.py`'s TTS loop is out of scope: it dispatches on the
`audio`/`isFinal` payload fields, never reads an event type, and logs no
unmatched messages, so it has no "unrecognized type" branch to speak of. -/
theorem unrecognized_event_amended (descriptor : Json)
    (fields : List (String × Json)) (t raw : String)
    (htype : Json.dictGet? fields "type" = some (Json.str t))
    (hb : t ∉ ["session.update", "input_audio_buffer.append",
      "input_audio_buffer.commit", "response.create"])
    (ha : t ∉ ["agent_response", "user_transcript", "interruption",
      "agent_response_correction", "ping"])
    (hs : t ∉ ["audio", "message", "interruption"]) :
    (handle_browser_event descriptor (Json.obj fields)).2 = [] ∧
    handle_elevenlabs_ai_event (Json.obj fields) = [] ∧
    handle_server_ai_frame raw (Json.obj fields) =
      [⟨Dest.browser, OutMsg.raw raw⟩] := by
  simp only [List.mem_cons, List.not_mem_nil, or_false, not_or] at hb ha hs
  obtain ⟨hb1, hb2, hb3, hb4⟩ := hb
  obtain ⟨ha1, ha2, ha3, ha4, ha5⟩ := ha
  obtain ⟨hs1, hs2, hs3⟩ := hs
  refine ⟨?_, ?_, ?_⟩
  · simp [handle_browser_event, htype, Json.isStr, hb1, hb2, hb3, hb4]
  · simp [handle_elevenlabs_ai_event, htype, Json.isStr, ha1, ha2, ha3, ha4, ha5]
  · simp [handle_server_ai_frame, htype, Json.isStr, hs1, hs2, hs3]

/-- C3 witness: the type `"bogus"` is in no translation table. -/
theorem unrecognized_event_amended_witness :
    Json.dictGet? [("type", Json.str "bogus")] "type" =
      some (Json.str "bogus") ∧
    "bogus" ∉ ["session.update", "input_audio_buffer.append",
      "input_audio_buffer.commit", "response.create"] ∧
    "bogus" ∉ ["agent_response", "user_transcript", "interruption",
      "agent_response_correction", "ping"] ∧
    "bogus" ∉ ["audio", "message", "interruption"] ∧
    ((handle_browser_event hybrid_session
        (Json.obj [("type", Json.str "bogus")])).2 = [] ∧
     handle_elevenlabs_ai_event (Json.obj [("type", Json.str "bogus")]) = [] ∧
     handle_server_ai_frame "unknownframe"
        (Json.obj [("type", Json.str "bogus")]) =
      [⟨Dest.browser, OutMsg.raw "unknownframe"⟩]) :=
  ⟨rfl, by decide, by decide, by decide,
    unrecognized_event_amended hybrid_session [("type", Json.str "bogus")]
      "bogus" "unknownframe" rfl (by decide) (by decide) (by decide)⟩

/-! ### C5: malformed frames are recoverable -/

/-- Deleting a malformed frame anywhere in the browser loop's input changes
nothing: it is logged and the loop carries on with the same descriptor. -/
theorem browser_loop_skips_malformed (descriptor : Json) (raw : String)
    (pre post : List Frame) :
    browser_loop descriptor (pre ++ Frame.malformed raw :: post) =
      browser_loop descriptor (pre ++ post) := by
  induction pre generalizing descriptor with
  | nil => rfl
  | cons f pre ih =>
    cases f with
    | malformed r => simpa [browser_loop] using ih descriptor
    | ok r j => simp [browser_loop, ih]

/-- Deleting a malformed frame anywhere in the hybrid AI loop's input changes
nothing. -/
theorem elevenlabs_ai_loop_skips_malformed (raw : String)
    (pre post : List Frame) :
    elevenlabs_ai_loop (pre ++ Frame.malformed raw :: post) =
      elevenlabs_ai_loop (pre ++ post) := by
  induction pre with
  | nil => rfl
  | cons f pre ih =>
    cases f with
    | malformed r => simpa [elevenlabs_ai_loop] using ih
    | ok r j => simp [elevenlabs_ai_loop, ih]

/-- Deleting a malformed frame anywhere in the TTS loop's input changes
nothing. -/
theorem elevenlabs_tts_loop_skips_malformed (raw : String)
    (pre post : List Frame) :
    elevenlabs_tts_loop (pre ++ Frame.malformed raw :: post) =
      elevenlabs_tts_loop (pre ++ post) := by
  induction pre with
  | nil => rfl
  | cons f pre ih =>
    cases f with
    | malformed r => simpa [elevenlabs_tts_loop] using ih
    | ok r j => simp [elevenlabs_tts_loop, ih]

/-- Deleting a malformed frame anywhere in `server.py`'s ElevenLabs loop's
input changes nothing. -/
theorem server_ai_loop_skips_malformed (raw : String) (pre post : List Frame) :
    server_ai_loop (pre ++ Frame.malformed raw :: post) =
      server_ai_loop (pre ++ post) := by
  induction pre with
  | nil => rfl
  | cons f pre ih =>
    cases f with
    | malformed r => simpa [server_ai_loop] using ih
    | ok r j => simp [server_ai_loop, ih]

/-- C5: a malformed (non-JSON-decodable) frame on any of the session's
sockets produces no send on any socket and leaves every loop's processing of
all other frames — before and after it — unchanged: each receive loop over
`pre ++ malformed :: post` equals the loop over `pre ++ post`, with the same
threaded descriptor.  The `JSONDecodeError` handler of every loop logs and
continues, so no socket is closed. -/
theorem malformed_frame_recoverable (descriptor : Json) (raw : String)
    (pre post : List Frame) :
    browser_loop descriptor (pre ++ Frame.malformed raw :: post) =
      browser_loop descriptor (pre ++ post) ∧
    elevenlabs_ai_loop (pre ++ Frame.malformed raw :: post) =
      elevenlabs_ai_loop (pre ++ post) ∧
    elevenlabs_tts_loop (pre ++ Frame.malformed raw :: post) =
      elevenlabs_tts_loop (pre ++ post) ∧
    server_ai_loop (pre ++ Frame.malformed raw :: post) =
      server_ai_loop (pre ++ post) :=
  ⟨browser_loop_skips_malformed descriptor raw pre post,
   elevenlabs_ai_loop_skips_malformed raw pre post,
   elevenlabs_tts_loop_skips_malformed raw pre post,
   server_ai_loop_skips_malformed raw pre post⟩

/-! ### C6: `agent_response` translation -/

/-- C6 counterexample: an `agent_response` event whose nested text is the
empty string `""` produces no sends at all — the `if text_response:`
truthiness guard skips it — whereas the claim, quantified over every nested
text `T`, requires a `{text: T, flush: true}` send to the TTS socket. -/
theorem agent_response_empty_counterexample :
    handle_elevenlabs_ai_event (Json.obj [("type", Json.str "agent_response"),
      ("agent_response_event",
        Json.obj [("agent_response", Json.str "")])]) = [] ∧
    (handle_elevenlabs_ai_event (Json.obj [("type", Json.str "agent_response"),
      ("agent_response_event",
        Json.obj [("agent_response", Json.str "")])])).countP Out.isToTts = 0 :=
  ⟨rfl, rfl⟩

/-- C6 amended: for every AI `agent_response` event whose nested
`agent_response` text `T` is non-empty, the relay sends the TTS socket
exactly `{text: T, flush: true}` and then sends the client a
`response.text.delta` event whose `delta` field is `T`, and nothing else. -/
theorem agent_response_translated (fields afields : List (String × Json))
    (T : String)
    (htype : Json.dictGet? fields "type" = some (Json.str "agent_response"))
    (hev : Json.dictGet? fields "agent_response_event" =
      some (Json.obj afields))
    (htext : Json.dictGet? afields "agent_response" = some (Json.str T))
    (hT : T ≠ "") :
    handle_elevenlabs_ai_event (Json.obj fields) =
      [⟨Dest.tts, OutMsg.json (Json.obj
         [("text", Json.str T), ("flush", Json.bool true)])⟩,
       ⟨Dest.browser, OutMsg.json
         (text_delta_event "elevenlabs_response" "elevenlabs_text"
           (Json.str T))⟩] ∧
    (text_delta_event "elevenlabs_response" "elevenlabs_text"
        (Json.str T)).field? "delta" = some (Json.str T) ∧
    (text_delta_event "elevenlabs_response" "elevenlabs_text"
        (Json.str T)).field? "type" = some (Json.str "response.text.delta") := by
  refine ⟨?_, rfl, rfl⟩
  simp [handle_elevenlabs_ai_event, htype, Json.isStr, Json.dictGetD, hev,
    htext, Json.truthy, hT]

/-- C6 witness: the spec's scenario with text `"hello"`. -/
theorem agent_response_translated_witness :
    Json.dictGet? [("type", Json.str "agent_response"),
        ("agent_response_event",
          Json.obj [("agent_response", Json.str "hello")])] "type" =
      some (Json.str "agent_response") ∧
    Json.dictGet? [("type", Json.str "agent_response"),
        ("agent_response_event",
          Json.obj [("agent_response", Json.str "hello")])]
        "agent_response_event" =
      some (Json.obj [("agent_response", Json.str "hello")]) ∧
    Json.dictGet? [("agent_response", Json.str "hello")] "agent_response" =
      some (Json.str "hello") ∧
    "hello" ≠ "" ∧
    (handle_elevenlabs_ai_event (Json.obj [("type", Json.str "agent_response"),
        ("agent_response_event",
          Json.obj [("agent_response", Json.str "hello")])]) =
      [⟨Dest.tts, OutMsg.json (Json.obj
         [("text", Json.str "hello"), ("flush", Json.bool true)])⟩,
       ⟨Dest.browser, OutMsg.json
         (text_delta_event "elevenlabs_response" "elevenlabs_text"
           (Json.str "hello"))⟩] ∧
     (text_delta_event "elevenlabs_response" "elevenlabs_text"
        (Json.str "hello")).field? "delta" = some (Json.str "hello") ∧
     (text_delta_event "elevenlabs_response" "elevenlabs_text"
        (Json.str "hello")).field? "type" =
      some (Json.str "response.text.delta")) :=
  ⟨rfl, rfl, rfl, by decide,
    agent_response_translated
      [("type", Json.str "agent_response"),
        ("agent_response_event",
          Json.obj [("agent_response", Json.str "hello")])]
      [("agent_response", Json.str "hello")] "hello" rfl rfl rfl (by decide)⟩

/-! ### C7: TTS message translation -/

/-- C7 counterexample: a TTS message carrying both an audio payload and
`isFinal: true` takes the audio branch only — `elif data.get("isFinal"):` is
never reached — so the client gets the audio delta but, contrary to the
claim, no `response.audio.done` for that message. -/
theorem tts_final_with_audio_counterexample :
    handle_elevenlabs_tts_message (Json.obj
        [("audio", Json.str "Zm9v"), ("isFinal", Json.bool true)]) =
      [⟨Dest.browser, OutMsg.json (audio_delta_event "elevenlabs_tts_response"
         "elevenlabs_tts_audio" (Json.str "Zm9v"))⟩] ∧
    (handle_elevenlabs_tts_message (Json.obj
        [("audio", Json.str "Zm9v"), ("isFinal", Json.bool true)])).countP
      Out.isAudioDone = 0 :=
  ⟨rfl, rfl⟩

/-- C7 amended: a TTS message carrying a truthy (non-empty) audio payload
yields exactly one `response.audio.delta` to the client with that payload as
`delta`; a TTS message with a truthy `isFinal` flag and no truthy audio
payload yields exactly one `response.audio.done`. -/
theorem tts_message_translated (f1 f2 : List (String × Json)) (a : String)
    (h1 : Json.dictGet? f1 "audio" = some (Json.str a)) (ha : a ≠ "")
    (h2a : (Json.dictGetD f2 "audio" Json.null).truthy = false)
    (h2f : (Json.dictGetD f2 "isFinal" Json.null).truthy = true) :
    handle_elevenlabs_tts_message (Json.obj f1) =
      [⟨Dest.browser, OutMsg.json (audio_delta_event "elevenlabs_tts_response"
         "elevenlabs_tts_audio" (Json.str a))⟩] ∧
    (audio_delta_event "elevenlabs_tts_response" "elevenlabs_tts_audio"
        (Json.str a)).field? "delta" = some (Json.str a) ∧
    handle_elevenlabs_tts_message (Json.obj f2) =
      [⟨Dest.browser, OutMsg.json
         (Json.obj [("type", Json.str "response.audio.done")])⟩] := by
  refine ⟨?_, rfl, ?_⟩
  · simp [handle_elevenlabs_tts_message, Json.dictGetD, h1, Json.truthy, ha]
  · simp [handle_elevenlabs_tts_message, h2a, h2f]

/-- C7 witness: the spec's scenario payload `"Zm9v"`, and a bare
`isFinal: true` message. -/
theorem tts_message_translated_witness :
    Json.dictGet? [("audio", Json.str "Zm9v")] "audio" =
      some (Json.str "Zm9v") ∧
    "Zm9v" ≠ "" ∧
    (Json.dictGetD [("isFinal", Json.bool true)] "audio" Json.null).truthy =
      false ∧
    (Json.dictGetD [("isFinal", Json.bool true)] "isFinal" Json.null).truthy =
      true ∧
    (handle_elevenlabs_tts_message (Json.obj [("audio", Json.str "Zm9v")]) =
      [⟨Dest.browser, OutMsg.json (audio_delta_event "elevenlabs_tts_response"
         "elevenlabs_tts_audio" (Json.str "Zm9v"))⟩] ∧
     (audio_delta_event "elevenlabs_tts_response" "elevenlabs_tts_audio"
        (Json.str "Zm9v")).field? "delta" = some (Json.str "Zm9v") ∧
     handle_elevenlabs_tts_message (Json.obj [("isFinal", Json.bool true)]) =
      [⟨Dest.browser, OutMsg.json
         (Json.obj [("type", Json.str "response.audio.done")])⟩]) :=
  ⟨rfl, by decide, rfl, rfl,
    tts_message_translated [("audio", Json.str "Zm9v")]
      [("isFinal", Json.bool true)] "Zm9v" rfl (by decide) rfl rfl⟩

/-! ### C10: audio-branch precedence in the TTS loop -/

/-- C10 counterexample: a TTS message whose `audio` field is the empty
string but which carries `isFinal: true` does produce a downstream event —
the empty string is falsy, so control falls to the `elif` and a
`response.audio.done` is sent — whereas the claim says such a message
produces no downstream event at all. -/
theorem tts_empty_audio_final_counterexample :
    handle_elevenlabs_tts_message (Json.obj
        [("audio", Json.str ""), ("isFinal", Json.bool true)]) =
      [⟨Dest.browser, OutMsg.json
         (Json.obj [("type", Json.str "response.audio.done")])⟩] ∧
    (handle_elevenlabs_tts_message (Json.obj
        [("audio", Json.str ""), ("isFinal", Json.bool true)])).length = 1 :=
  ⟨rfl, rfl⟩

/-- C10 amended: a TTS message with a non-empty `audio` field and
`isFinal: true` yields only the `response.audio.delta` and never a
`response.audio.done` (the audio branch takes precedence), and a TTS message
whose `audio` field is the empty string yields no downstream event — unless
it also carries a truthy `isFinal`, in which case it yields the
`response.audio.done`. -/
theorem tts_audio_branch_precedence (f1 f2 : List (String × Json)) (a : String)
    (h1a : Json.dictGet? f1 "audio" = some (Json.str a)) (ha : a ≠ "")
    (h1f : Json.dictGet? f1 "isFinal" = some (Json.bool true))
    (h2a : Json.dictGet? f2 "audio" = some (Json.str ""))
    (h2f : (Json.dictGetD f2 "isFinal" Json.null).truthy = false) :
    handle_elevenlabs_tts_message (Json.obj f1) =
      [⟨Dest.browser, OutMsg.json (audio_delta_event "elevenlabs_tts_response"
         "elevenlabs_tts_audio" (Json.str a))⟩] ∧
    (handle_elevenlabs_tts_message (Json.obj f1)).countP Out.isAudioDone = 0 ∧
    handle_elevenlabs_tts_message (Json.obj f2) = [] := by
  have e1 : handle_elevenlabs_tts_message (Json.obj f1) =
      [⟨Dest.browser, OutMsg.json (audio_delta_event "elevenlabs_tts_response"
         "elevenlabs_tts_audio" (Json.str a))⟩] := by
    simp [handle_elevenlabs_tts_message, Json.dictGetD, h1a, Json.truthy, ha]
  refine ⟨e1, ?_, ?_⟩
  · rw [e1]; rfl
  · have h2a' : (Json.dictGetD f2 "audio" Json.null).truthy = false := by
      simp [Json.dictGetD, h2a, Json.truthy]
    simp [handle_elevenlabs_tts_message, h2a', h2f]

/-- C10 witness: `audio: "Zm9v", isFinal: true` versus a bare `audio: ""`. -/
theorem tts_audio_branch_precedence_witness :
    Json.dictGet? [("audio", Json.str "Zm9v"), ("isFinal", Json.bool true)]
      "audio" = some (Json.str "Zm9v") ∧
    "Zm9v" ≠ "" ∧
    Json.dictGet? [("audio", Json.str "Zm9v"), ("isFinal", Json.bool true)]
      "isFinal" = some (Json.bool true) ∧
    Json.dictGet? [("audio", Json.str "")] "audio" = some (Json.str "") ∧
    (Json.dictGetD [("audio", Json.str "")] "isFinal" Json.null).truthy =
      false ∧
    (handle_elevenlabs_tts_message (Json.obj
        [("audio", Json.str "Zm9v"), ("isFinal", Json.bool true)]) =
      [⟨Dest.browser, OutMsg.json (audio_delta_event "elevenlabs_tts_response"
         "elevenlabs_tts_audio" (Json.str "Zm9v"))⟩] ∧
     (handle_elevenlabs_tts_message (Json.obj
        [("audio", Json.str "Zm9v"), ("isFinal", Json.bool true)])).countP
       Out.isAudioDone = 0 ∧
     handle_elevenlabs_tts_message (Json.obj [("audio", Json.str "")]) = []) :=
  ⟨rfl, by decide, rfl, rfl, rfl,
    tts_audio_branch_precedence
      [("audio", Json.str "Zm9v"), ("isFinal", Json.bool true)]
      [("audio", Json.str "")] "Zm9v" rfl (by decide) rfl rfl rfl⟩

/-! ### C4: upstream connect failure -/

/-- C4: when the TTS connect fails after the AI connect succeeded, the
browser socket is closed with 1011 and `session.created` is never sent —
that much matches the claim — but contrary to the claim the already-open AI
socket is never closed (no `closeAI` in the trace): the registry insert only
happens after both connects, so the `finally` cleanup's
`if websocket in self.connections` test fails and skips the upstream closes,
leaving the AI connection orphaned. -/
theorem tts_connect_failure_orphans_ai :
    handle_browser_connection "/" true false =
      [Action.connectAI, Action.connectTTS, Action.closeBrowser 1011] ∧
    (handle_browser_connection "/" true false).countP Action.isCloseAI = 0 ∧
    (handle_browser_connection "/" true false).countP Action.isSendBrowser = 0 ∧
    handle_browser_connection "/" false false =
      [Action.connectAI, Action.closeBrowser 1011] ∧
    (handle_browser_connection "/" false false).countP Action.isSendBrowser =
      0 :=
  ⟨rfl, rfl, rfl, rfl, rfl⟩

/-! ### C8: teardown on first socket failure -/

/-- C8: once a registered session's pump stops because one of its three
owned sockets closed, the `finally` cleanup closes every still-open owned
socket with the normal-closure code 1000, removes the session's registry
entry exactly once, and leaves a state on which a second run would remove
nothing. -/
theorem socket_failure_teardown (b a t : Bool)
    (hfail : b = false ∨ a = false ∨ t = false) :
    (cleanup ⟨b, a, t, true⟩).1 = ⟨false, false, false, false⟩ ∧
    (a = true → Action.closeAI 1000 ∈ (cleanup ⟨b, a, t, true⟩).2) ∧
    (t = true → Action.closeTTS 1000 ∈ (cleanup ⟨b, a, t, true⟩).2) ∧
    (b = true → Action.closeBrowser 1000 ∈ (cleanup ⟨b, a, t, true⟩).2) ∧
    (cleanup ⟨b, a, t, true⟩).2.countP Action.isRegistryRemove = 1 ∧
    (cleanup (cleanup ⟨b, a, t, true⟩).1).2.countP Action.isRegistryRemove =
      0 := by
  cases b <;> cases a <;> cases t <;>
    simp_all [cleanup, Action.isRegistryRemove, List.countP_cons]

/-- C8 witness: the browser socket closed while both upstream sockets are
still open. -/
theorem socket_failure_teardown_witness :
    ((false : Bool) = false ∨ (true : Bool) = false ∨ (true : Bool) = false) ∧
    ((cleanup ⟨false, true, true, true⟩).1 = ⟨false, false, false, false⟩ ∧
     ((true : Bool) = true →
       Action.closeAI 1000 ∈ (cleanup ⟨false, true, true, true⟩).2) ∧
     ((true : Bool) = true →
       Action.closeTTS 1000 ∈ (cleanup ⟨false, true, true, true⟩).2) ∧
     ((false : Bool) = true →
       Action.closeBrowser 1000 ∈ (cleanup ⟨false, true, true, true⟩).2) ∧
     (cleanup ⟨false, true, true, true⟩).2.countP Action.isRegistryRemove =
       1 ∧
     (cleanup (cleanup ⟨false, true, true, true⟩).1).2.countP
       Action.isRegistryRemove = 0) :=
  ⟨Or.inl rfl, socket_failure_teardown false true true (Or.inl rfl)⟩

/-! ### C9: path validation -/

/-- C9: a connection whose request path, query string stripped, is not `/`
is closed with the policy-violation code 1008 and no upstream connect
attempt — neither to the AI nor to the TTS endpoint — is ever made, in both
`hybrid_server.py` and `server.py`. -/
theorem bad_path_rejected (path : String) (aiOk ttsOk : Bool)
    (h : base_path path ≠ "/") :
    handle_browser_connection path aiOk ttsOk = [Action.closeBrowser 1008] ∧
    (handle_browser_connection path aiOk ttsOk).countP Action.isConnect = 0 ∧
    server_handle_browser_connection path aiOk =
      [Action.closeBrowser 1008] ∧
    (server_handle_browser_connection path aiOk).countP Action.isConnect =
      0 := by
  have e1 : handle_browser_connection path aiOk ttsOk =
      [Action.closeBrowser 1008] := by
    simp [handle_browser_connection, h]
  have e2 : server_handle_browser_connection path aiOk =
      [Action.closeBrowser 1008] := by
    simp [server_handle_browser_connection, h]
  exact ⟨e1, by rw [e1]; rfl, e2, by rw [e2]; rfl⟩

/-- C9 witness: the path `/other` (and one with a query string) is
rejected. -/
theorem bad_path_rejected_witness :
    base_path "/other" ≠ "/" ∧
    (handle_browser_connection "/other" true true =
      [Action.closeBrowser 1008] ∧
     (handle_browser_connection "/other" true true).countP Action.isConnect =
       0 ∧
     server_handle_browser_connection "/other" true =
      [Action.closeBrowser 1008] ∧
     (server_handle_browser_connection "/other" true).countP
       Action.isConnect = 0) :=
  ⟨by decide, bad_path_rejected "/other" true true (by decide)⟩

end VoiceAgent
